import Mathlib

/-!
Shallow embedding of `addon_imps/storage/owncloud.py` (OwnCloudStorageImp),
the WebDAV storage adapter, together with the Python / standard-library
string operations it relies on (`str.lstrip`, `str.rstrip`, `str.strip`,
`str.split`, `urllib.parse.unquote`, `urllib.parse.urlparse(...).path`).

Modelling conventions:
- Python strings are Lean `String` (sequences of unicode code points, as in
  Lean 4.14 where `String` wraps `List Char`); slicing by `len(...)` maps to
  `String.drop`/`String.length`, which also count code points.
- XML documents are modelled post-parse, as an element tree (`XmlElem`): the
  network transport of the adapter yields the parsed root element directly,
  so `xml.etree.ElementTree.fromstring` is the identity in the model and the
  malformed-XML failure mode is out of scope here.  Namespaced tags are
  represented in their prefixed form (`"d:response"` for `{DAV:}response`),
  matching the prefix map `{"d": "DAV:", "oc": "http://owncloud.org/ns"}`
  that the source passes to every `find`/`findall`.
- Python `ValueError`s raised by the adapter are mapped to the error
  taxonomy of the specification (`PropertyNotFound`, `ItemNotFound`,
  `InvalidItemId`, `MissingUsername`); fallible operations return `Except`.
- The network transport is a function from the issued PROPFIND request to
  the parsed response element; `get_external_account_id` additionally
  returns the list of requests it issued, so that statements about which
  request is sent on the wire can be made.
-/

deriving instance DecidableEq for Except

/-! ### Python string primitives -/

/-- Models Python `s.lstrip("/")`: remove all leading `/` characters. -/
def lstripSlash (s : String) : String :=
  ⟨s.data.dropWhile (fun c => c = '/')⟩

/-- Models Python `s.rstrip("/")`: remove all trailing `/` characters. -/
def rstripSlash (s : String) : String :=
  ⟨(s.data.reverse.dropWhile (fun c => c = '/')).reverse⟩

/-- Models Python `s.strip("/")`: remove `/` characters at both ends. -/
def pyStripSlash (s : String) : String :=
  lstripSlash (rstripSlash s)

/-- Models Python `s.split("/")` on the underlying character list: split at
every `/`, keeping empty segments; the result is always non-empty
(`"".split("/") == [""]`). -/
def splitSlash : List Char → List (List Char)
  | [] => [[]]
  | c :: cs =>
    if c = '/' then [] :: splitSlash cs
    else
      match splitSlash cs with
      | [] => [[c]]
      | s :: rest => (c :: s) :: rest

/-- Helper for Python `s.split(":", maxsplit=1)`: split a character list at
the first `:`; `none` when there is no colon (in which case the Python
two-variable unpacking in `_parse_item_id` raises `ValueError`). -/
def splitFirstColonAux : List Char → Option (List Char × List Char)
  | [] => none
  | c :: cs =>
    if c = ':' then some ([], cs)
    else
      match splitFirstColonAux cs with
      | none => none
      | some (a, b) => some (c :: a, b)

/-- Models Python `s.split(":", maxsplit=1)` restricted to the two-part
outcome: `some (before, after)` at the first colon, `none` if no colon. -/
def splitFirstColon (s : String) : Option (String × String) :=
  match splitFirstColonAux s.data with
  | none => none
  | some (a, b) => some (⟨a⟩, ⟨b⟩)

/-- Python truthiness of an optional string (`None` and `""` are falsy),
used for `auth_result_extras.get("username") or self._fallback_username`
and `if not username`. -/
def pyTruthy : Option String → Bool
  | none => false
  | some s => s ≠ ""

/-- Models Python `a or b` on optional strings: `a` when truthy, else `b`. -/
def pyOrStr (a b : Option String) : Option String :=
  if pyTruthy a then a else b

/-- Models Python `dict.get(key)` on a dictionary given as an association
list: the value at the first matching key, `none` when absent. -/
def dictGet (d : List (String × String)) (k : String) : Option String :=
  (d.find? (fun p => p.1 = k)).map (fun p => p.2)

/-- Models Python `s.startswith(p)`: `p` is a prefix of `s`, compared
character by character. -/
def pyStartswith (s p : String) : Bool :=
  p.data.isPrefixOf s.data

/-! ### `urllib.parse` primitives -/

/-- Value of a hexadecimal digit character, both cases, as used by
`urllib.parse.unquote`. -/
def hexDigitVal (c : Char) : Option Nat :=
  if '0' ≤ c ∧ c ≤ '9' then some (c.toNat - '0'.toNat)
  else if 'a' ≤ c ∧ c ≤ 'f' then some (c.toNat - 'a'.toNat + 10)
  else if 'A' ≤ c ∧ c ≤ 'F' then some (c.toNat - 'A'.toNat + 10)
  else none

/-- Models `urllib.parse.unquote` for single-byte code points: each valid
`%XX` escape becomes the character with code `XX`; invalid escapes are left
verbatim.  (Multi-byte UTF-8 escape sequences, which Python would combine,
do not occur in any statement below.) -/
def unquoteChars : List Char → List Char
  | '%' :: a :: b :: rest =>
    match hexDigitVal a, hexDigitVal b with
    | some ha, some hb => Char.ofNat (16 * ha + hb) :: unquoteChars rest
    | _, _ => '%' :: unquoteChars (a :: b :: rest)
  | c :: rest => c :: unquoteChars rest
  | [] => []

/-- Models `urllib.parse.unquote` on strings. -/
def unquote (s : String) : String :=
  ⟨unquoteChars s.data⟩

/-- Characters allowed in a URL scheme after the initial letter
(`scheme_chars` in `urllib.parse`). -/
def isSchemeChar (c : Char) : Bool :=
  c.isAlpha || c.isDigit || c = '+' || c = '-' || c = '.'

/-- Scheme removal step of `urllib.parse.urlsplit`: when the text before
the first colon is a non-empty run of scheme characters starting with a
letter, drop it together with the colon. -/
def dropScheme (cs : List Char) : List Char :=
  let pre := cs.takeWhile (fun c => c ≠ ':')
  if pre.length < cs.length && !pre.isEmpty
      && (pre.headD ' ').isAlpha && pre.all isSchemeChar then
    cs.drop (pre.length + 1)
  else cs

/-- Netloc removal step of `urllib.parse.urlsplit`: after a leading `//`,
the authority extends to the next `/`, `?` or `#`. -/
def dropNetloc (cs : List Char) : List Char :=
  match cs with
  | '/' :: '/' :: rest => rest.dropWhile (fun c => c ≠ '/' && c ≠ '?' && c ≠ '#')
  | other => other

/-- Path extraction step: the path ends at the first `?` (query) or `#`
(fragment). -/
def takePath (cs : List Char) : List Char :=
  cs.takeWhile (fun c => c ≠ '?' && c ≠ '#')

/-- Params removal step of `urllib.parse.urlparse`: a `;` in the last path
segment starts the params component, which is not part of `.path`. -/
def removeParams (cs : List Char) : List Char :=
  let lastSegLen := (cs.reverse.takeWhile (fun c => c ≠ '/')).length
  let segStart := cs.length - lastSegLen
  let seg := cs.drop segStart
  if seg.contains ';' then cs.take segStart ++ seg.takeWhile (fun c => c ≠ ';')
  else cs

/-- Models `urllib.parse.urlparse(s).path`. -/
def urlPath (s : String) : String :=
  ⟨removeParams (takePath (dropNetloc (dropScheme s.data)))⟩

/-! ### XML element trees -/

mutual
/-- A parsed XML element: tag (in prefixed form), optional text, children in
document order.  Models `xml.etree.ElementTree.Element`; `text = none`
stands for an element with no text node.  The children are carried by the
companion type `XmlForest`, an inlined list (this keeps all recursion over
the tree structural). -/
inductive XmlElem where
  | mk (tag : String) (text : Option String) (children : XmlForest)
deriving DecidableEq
/-- The list of children of an `XmlElem`, as its own inductive type. -/
inductive XmlForest where
  | nil
  | cons (e : XmlElem) (rest : XmlForest)
deriving DecidableEq
end

/-- The children of a forest node, as a `List`. -/
def XmlForest.toList : XmlForest → List XmlElem
  | .nil => []
  | .cons e rest => e :: rest.toList

/-- Build a forest from a list of elements. -/
def XmlForest.ofList : List XmlElem → XmlForest
  | [] => .nil
  | e :: rest => .cons e (XmlForest.ofList rest)

/-- The element's tag. -/
def XmlElem.tag : XmlElem → String
  | .mk t _ _ => t

/-- The element's text, `none` when absent (Python `element.text is None`). -/
def XmlElem.text : XmlElem → Option String
  | .mk _ tx _ => tx

/-- The element's children. -/
def XmlElem.children : XmlElem → XmlForest
  | .mk _ _ cs => cs

mutual
/-- All elements strictly below an element, in document (pre-)order. -/
def XmlElem.desc : XmlElem → List XmlElem
  | .mk _ _ cs => cs.descL
/-- All elements of a forest in document (pre-)order, each element followed
by its own descendants.  `e.children.descL` is the set ElementTree's `.//`
axis ranges over below `e`. -/
def XmlForest.descL : XmlForest → List XmlElem
  | .nil => []
  | .cons e rest => e :: (e.desc ++ rest.descL)
end

/-- Models `element.find(tag, ns)` for a plain tag: first direct child with
the tag, in document order. -/
def findChild (e : XmlElem) (tag : String) : Option XmlElem :=
  e.children.toList.find? (fun c => c.tag = tag)

/-- Models `element.findall(tag, ns)` for a plain tag: all direct children
with the tag, in document order. -/
def findAllChildren (e : XmlElem) (tag : String) : List XmlElem :=
  e.children.toList.filter (fun c => c.tag = tag)

/-- Models `element.find(".//tag", ns)`: first descendant with the tag in
document order (the element itself excluded). -/
def findDesc (e : XmlElem) (tag : String) : Option XmlElem :=
  e.children.descL.find? (fun c => c.tag = tag)

/-- Models `element.find(".//t1/t2", ns)`: for each descendant with tag `t1`
in document order, its children with tag `t2`; the first such grandchild
overall. -/
def findDescChild (e : XmlElem) (t1 t2 : String) : Option XmlElem :=
  (((e.children.descL.filter (fun c => c.tag = t1)).map
      (fun c => c.children.toList.filter (fun d => d.tag = t2))).flatten).head?

/-! ### Data model (`addon_toolkit.interfaces.storage`) -/

/-- Modelled from the spec: `ItemType` lives in `addon_toolkit.interfaces.
storage`, which is not among the provided sources.  Per §3 it is the enum
`{FILE, FOLDER}` and per §6 the item-id wire format is
`"{folder|file}:{slash-delimited path}"`, so the enum values are the
strings `"file"` and `"folder"`. -/
inductive ItemType where
  | file
  | folder
deriving DecidableEq, Repr

/-- The string value of an `ItemType` member (Python `item_type.value`). -/
def ItemType.value : ItemType → String
  | .file => "file"
  | .folder => "folder"

/-- Modelled from the spec: the enum constructor `ItemType(token)`, which
raises `ValueError` (here: `none`) when the token is not a member value. -/
def itemTypeOfValue : String → Option ItemType :=
  fun s => if s = "file" then some .file
    else if s = "folder" then some .folder
    else none

/-- The error taxonomy of the specification (§7).  Each `ValueError` raise
site of the adapter is mapped to its taxonomy element. -/
inductive AdapterError where
  | malformedResponse
  | propertyNotFound
  | itemNotFound
  | invalidItemId
  | missingUsername
deriving DecidableEq, Repr

/-- Modelled from the spec: `storage.ItemResult` (§3's `Item`): identifier,
name and type of one storage item. -/
structure ItemResult where
  item_id : String
  item_name : String
  item_type : ItemType
deriving DecidableEq, Repr

/-- Modelled from the spec: `storage.ItemSampleResult` (§3's `ItemPage`),
one page of items. -/
structure ItemSampleResult where
  items : List ItemResult
deriving DecidableEq, Repr

/-- One PROPFIND call issued against the network transport: the relative
request path, the `Depth` header value, and the XML request body. -/
structure PropfindRequest where
  uri_path : String
  depth : String
  content : String
deriving DecidableEq, Repr

/-- The transport collaborator: maps each issued PROPFIND request to the
parsed root element of its multistatus response body. -/
def Transport : Type := PropfindRequest → XmlElem

/-- The `_BUILD_PROPFIND_CURRENT_USER_PRINCIPAL` request body, verbatim. -/
def _BUILD_PROPFIND_CURRENT_USER_PRINCIPAL : String :=
  "<?xml version=\"1.0\" encoding=\"UTF-8\"?>\n<d:propfind xmlns:d=\"DAV:\">\n    <d:prop>\n        <d:current-user-principal/>\n    </d:prop>\n</d:propfind>"

/-- The `_BUILD_PROPFIND_DISPLAYNAME` request body, verbatim. -/
def _BUILD_PROPFIND_DISPLAYNAME : String :=
  "<?xml version=\"1.0\" encoding=\"UTF-8\"?>\n<d:propfind xmlns:d=\"DAV:\">\n    <d:prop>\n        <d:displayname/>\n    </d:prop>\n</d:propfind>"

/-- The `_BUILD_PROPFIND_ALLPROPS` request body, verbatim. -/
def _BUILD_PROPFIND_ALLPROPS : String :=
  "<?xml version=\"1.0\" encoding=\"UTF-8\"?>\n<d:propfind xmlns:d=\"DAV:\">\n    <d:allprop/>\n</d:propfind>"

/-! ### Item-id codec -/

/-- `_make_item_id(item_type, path)`: `f"{item_type.value}:{path}"`. -/
def _make_item_id (item_type : ItemType) (path : String) : String :=
  item_type.value ++ ":" ++ path

/-- `_parse_item_id(item_id)`: empty string decodes to the root folder;
otherwise split on the first colon and look the type token up in the
`ItemType` enum.  The Python `ValueError`s — failed two-variable unpacking
when there is no colon, and `ItemType(_type)` on an unknown token — are the
spec's `InvalidItemId`. -/
def _parse_item_id (item_id : String) :
    Except AdapterError (ItemType × String) :=
  if item_id = "" then .ok (.folder, "/")
  else
    match splitFirstColon item_id with
    | none => .error .invalidItemId
    | some (t, p) =>
      match itemTypeOfValue t with
      | none => .error .invalidItemId
      | some ty => .ok (ty, p)

/-- `_owncloud_root_id()`. -/
def _owncloud_root_id : String :=
  _make_item_id .folder "/"

/-- `OwnCloudStorageImp._strip_absolute_path`: `path.lstrip("/")`. -/
def _strip_absolute_path (path : String) : String :=
  lstripSlash path

/-! ### XML response parsing -/

/-- `OwnCloudStorageImp._parse_property` applied to the result of the
`find`: succeeds exactly when the element was found and its text is truthy
(`if element is not None and element.text`); otherwise the `ValueError` is
the spec's `PropertyNotFound`. -/
def _parse_property (element : Option XmlElem) :
    Except AdapterError String :=
  match element with
  | some e =>
    match e.text with
    | some t => if t ≠ "" then .ok t else .error .propertyNotFound
    | none => .error .propertyNotFound
  | none => .error .propertyNotFound

/-- `OwnCloudStorageImp._parse_current_user_principal`: `_parse_property`
at xpath `.//d:current-user-principal/d:href`. -/
def _parse_current_user_principal (root : XmlElem) :
    Except AdapterError String :=
  _parse_property (findDescChild root "d:current-user-principal" "d:href")

/-- `OwnCloudStorageImp._parse_displayname`: `_parse_property` at xpath
`.//d:displayname`, recovering from `PropertyNotFound` with the fixed
fallback label `"default-name"`. -/
def _parse_displayname (root : XmlElem) : String :=
  match _parse_property (findDesc root "d:displayname") with
  | .ok t => t
  | .error _ => "default-name"

/-- The display-name fallback of `_parse_response_element`:
`path.rstrip("/").split("/")[-1]`. -/
def lastSegmentName (path : String) : String :=
  ⟨(splitSlash (rstripSlash path).data).getLastD []⟩

/-- `OwnCloudStorageImp._parse_response_element`: item type from the
presence of a `d:collection` child inside the first `.//d:resourcetype`
descendant, display name from the first `.//d:displayname` descendant when
it has truthy text, else the last path segment; the id re-encodes type and
path. -/
def _parse_response_element (response_element : XmlElem) (path : String) :
    ItemResult :=
  let resourcetype := findDesc response_element "d:resourcetype"
  let item_type : ItemType :=
    match resourcetype with
    | some rt => if (findChild rt "d:collection").isSome then .folder else .file
    | none => .file
  let displayname :=
    match findDesc response_element "d:displayname" with
    | some dn =>
      match dn.text with
      | some t => if t ≠ "" then t else lastSegmentName path
      | none => lastSegmentName path
    | none => lastSegmentName path
  { item_id := _make_item_id item_type path
    item_name := displayname
    item_type := item_type }

/-- `OwnCloudStorageImp._href_to_path`: percent-decode the href, take its
URL path component, strip leading slashes; strip the base API URL's
normalized path when it is a string prefix; strip slashes at both ends; an
empty result becomes `"/"` (`return path or "/"`). -/
def _href_to_path (external_api_url : String) (href : String) : String :=
  let href_path := lstripSlash (urlPath (unquote href))
  let base_path := lstripSlash (rstripSlash (urlPath external_api_url))
  let path :=
    if pyStartswith href_path base_path then href_path.drop base_path.length
    else href_path
  let path2 := pyStripSlash path
  if path2 = "" then "/" else path2

/-! ### Adapter operations -/

/-- `OwnCloudStorageImp.get_item_info`: decode the id, PROPFIND (Depth 0,
allprops) on the stripped path, require a `d:response` child of the
multistatus root (else the `ValueError` that is the spec's `ItemNotFound`),
and parse it, forcing the identifier's path onto the result. -/
def get_item_info (transport : Transport) (item_id : String) :
    Except AdapterError ItemResult :=
  match _parse_item_id item_id with
  | .error e => .error e
  | .ok (_item_type, path) =>
    let url := _strip_absolute_path path
    let root := transport ⟨url, "0", _BUILD_PROPFIND_ALLPROPS⟩
    match findChild root "d:response" with
    | none => .error .itemNotFound
    | some response_element => .ok (_parse_response_element response_element path)

/-- The response-collection loop of `OwnCloudStorageImp.list_child_items`
(the spec's `parseMultistatusChildren`), factored over the parsed
multistatus root: for each `d:response` child, skip it when its `d:href`
child is absent or has falsy text (`continue`), map the href through
`_href_to_path`, skip the container's own entry (equal trailing-slash-
trimmed paths), parse the element, and apply the optional type filter. -/
def parseMultistatusChildren (external_api_url : String) (root : XmlElem)
    (path : String) (item_type : Option ItemType) : List ItemResult :=
  (findAllChildren root "d:response").filterMap (fun response_element =>
    match findChild response_element "d:href" with
    | none => none
    | some href_element =>
      match href_element.text with
      | none => none
      | some href =>
        if href = "" then none
        else
          let item_path := _href_to_path external_api_url href
          if rstripSlash item_path = rstripSlash path then none
          else
            let item_result := _parse_response_element response_element item_path
            match item_type with
            | some want => if item_result.item_type = want then some item_result else none
            | none => some item_result)

/-- `OwnCloudStorageImp.list_child_items`: decode the id, PROPFIND
(Depth 1, allprops) on the stripped path, collect the children as above and
return them as one page.  The `page_cursor` parameter of the source is
accepted and unused; it is omitted here. -/
def list_child_items (external_api_url : String) (transport : Transport)
    (item_id : String) (item_type : Option ItemType) :
    Except AdapterError ItemSampleResult :=
  match _parse_item_id item_id with
  | .error e => .error e
  | .ok (_item_type, path) =>
    let relative_path := _strip_absolute_path path
    let root := transport ⟨relative_path, "1", _BUILD_PROPFIND_ALLPROPS⟩
    .ok ⟨parseMultistatusChildren external_api_url root path item_type⟩

/-- `OwnCloudStorageImp.list_root_items`: `list_child_items` at the root
id with no type filter. -/
def list_root_items (external_api_url : String) (transport : Transport) :
    Except AdapterError ItemSampleResult :=
  list_child_items external_api_url transport _owncloud_root_id none

/-- The source's `OwnCloudStorageImp._fallback_username` property:
the constant `"default-username"` (declared type `str | None`). -/
def _fallback_username : Option String :=
  some "default-username"

/-- `OwnCloudStorageImp.get_external_account_id`: PROPFIND (Depth 0,
current-user-principal body) against the account root; on
`PropertyNotFound` fall back to `auth_result_extras.get("username") or
self._fallback_username` (Python `or`), failing with the spec's
`MissingUsername` when that is falsy, else using the path
`/remote.php/dav/files/{username}/`; then PROPFIND (Depth 0, displayname
body) against the stripped principal path and return its (possibly
fallback) display name.  The fallback username is a parameter here, with
the source's configured value in `_fallback_username`; the issued requests
are returned alongside the result. -/
def get_external_account_id (fallback_username : Option String)
    (transport : Transport) (auth_result_extras : List (String × String)) :
    Except AdapterError (String × List PropfindRequest) :=
  let req1 : PropfindRequest :=
    ⟨_strip_absolute_path "", "0", _BUILD_PROPFIND_CURRENT_USER_PRINCIPAL⟩
  let resp1 := transport req1
  let principal : Except AdapterError String :=
    match _parse_current_user_principal resp1 with
    | .ok url => .ok url
    | .error _ =>
      match pyOrStr (dictGet auth_result_extras "username") fallback_username with
      | none => .error .missingUsername
      | some username =>
        if username = "" then .error .missingUsername
        else .ok ("/remote.php/dav/files/" ++ username ++ "/")
  match principal with
  | .error e => .error e
  | .ok current_user_principal_url =>
    let stripped := lstripSlash current_user_principal_url
    let req2 : PropfindRequest :=
      ⟨_strip_absolute_path stripped, "0", _BUILD_PROPFIND_DISPLAYNAME⟩
    let resp2 := transport req2
    .ok (_parse_displayname resp2, [req1, req2])

/-! ### Helper lemmas: strings and the item-id codec -/

theorem stringMk_data (s : String) : (⟨s.data⟩ : String) = s := by
  cases s
  rfl

theorem splitFirstColonAux_of_append (l1 l2 : List Char) (h : ':' ∉ l1) :
    splitFirstColonAux (l1 ++ ':' :: l2) = some (l1, l2) := by
  induction l1 with
  | nil => simp [splitFirstColonAux]
  | cons c cs ih =>
    simp only [List.mem_cons, not_or] at h
    have hc : ¬ (c = ':') := fun hh => h.1 hh.symm
    simp [splitFirstColonAux, hc, ih h.2]

theorem splitFirstColonAux_of_not_mem (l : List Char) (h : ':' ∉ l) :
    splitFirstColonAux l = none := by
  induction l with
  | nil => rfl
  | cons c cs ih =>
    simp only [List.mem_cons, not_or] at h
    have hc : ¬ (c = ':') := fun hh => h.1 hh.symm
    simp [splitFirstColonAux, hc, ih h.2]

theorem data_append_colon (a b : String) :
    (a ++ ":" ++ b).data = a.data ++ ':' :: b.data := by
  simp [String.data_append]

theorem splitFirstColon_append (a b : String) (h : ':' ∉ a.data) :
    splitFirstColon (a ++ ":" ++ b) = some (a, b) := by
  unfold splitFirstColon
  rw [data_append_colon, splitFirstColonAux_of_append _ _ h]

theorem append_colon_ne_empty (a b : String) : a ++ ":" ++ b ≠ "" := by
  intro h
  have hd : (a ++ ":" ++ b).data = ("" : String).data := by rw [h]
  rw [data_append_colon] at hd
  simp at hd

theorem parse_make_item_id (t : ItemType) (p : String) :
    _parse_item_id (_make_item_id t p) = .ok (t, p) := by
  have hmk : _make_item_id t p = t.value ++ ":" ++ p := rfl
  have hmem : ':' ∉ t.value.data := by cases t <;> decide
  unfold _parse_item_id
  rw [hmk, if_neg (append_colon_ne_empty t.value p),
    splitFirstColon_append t.value p hmem]
  cases t <;> rfl

/-- C4: for every `(type, path)` pair, decoding the encoded item identifier
returns the original pair: `_parse_item_id (_make_item_id t p) = (t, p)`. -/
theorem C4_item_id_roundtrip (t : ItemType) (p : String) :
    _parse_item_id (_make_item_id t p) = .ok (t, p) :=
  parse_make_item_id t p

/-- C5: `_parse_item_id` maps the empty string to `(FOLDER, "/")`, splits
on the first colon only (`"folder:a:b"` decodes to `(FOLDER, "a:b")`), and
fails with `InvalidItemId` when the input has no colon (for non-empty
input) or when the type token is not a recognized `ItemType` value; in
particular `"bogus"` fails. -/
theorem C5_parse_item_id_cases :
    _parse_item_id "" = .ok (.folder, "/") ∧
    _parse_item_id "folder:a:b" = .ok (.folder, "a:b") ∧
    (∀ s : String, s ≠ "" → ':' ∉ s.data →
      _parse_item_id s = .error .invalidItemId) ∧
    (∀ tok rest : String, ':' ∉ tok.data → itemTypeOfValue tok = none →
      _parse_item_id (tok ++ ":" ++ rest) = .error .invalidItemId) ∧
    _parse_item_id "bogus" = .error .invalidItemId := by
  refine ⟨by decide, by decide, ?_, ?_, by decide⟩
  · intro s hne hmem
    unfold _parse_item_id splitFirstColon
    rw [if_neg hne, splitFirstColonAux_of_not_mem _ hmem]
  · intro tok rest hmem htok
    unfold _parse_item_id
    rw [if_neg (append_colon_ne_empty tok rest),
      splitFirstColon_append tok rest hmem]
    simp [htok]

theorem C5_parse_item_id_cases_witness :
    _parse_item_id "nocolon" = .error .invalidItemId ∧
    _parse_item_id ("bogus" ++ ":" ++ "p") = .error .invalidItemId :=
  ⟨C5_parse_item_id_cases.2.2.1 "nocolon" (by decide) (by decide),
   C5_parse_item_id_cases.2.2.2.1 "bogus" "p" (by decide) (by decide)⟩

/-- C9: neither `get_item_info` nor `list_child_items` uses the `ItemType`
tag decoded from the input identifier: with any fixed transport, the
identifiers `"file:" ++ p` and `"folder:" ++ p` give identical results, for
every path `p`. -/
theorem C9_type_tag_ignored (p external_api_url : String)
    (transport : Transport) (filt : Option ItemType) :
    get_item_info transport ("file:" ++ p) =
        get_item_info transport ("folder:" ++ p) ∧
    list_child_items external_api_url transport ("file:" ++ p) filt =
        list_child_items external_api_url transport ("folder:" ++ p) filt := by
  have e1 : ("file:" ++ p) = _make_item_id .file p := by
    show ("file:" ++ p) = "file" ++ ":" ++ p
    rw [show ("file" ++ ":" : String) = "file:" from by decide]
  have e2 : ("folder:" ++ p) = _make_item_id .folder p := by
    show ("folder:" ++ p) = "folder" ++ ":" ++ p
    rw [show ("folder" ++ ":" : String) = "folder:" from by decide]
  constructor
  · unfold get_item_info
    rw [e1, e2, parse_make_item_id, parse_make_item_id]
  · unfold list_child_items
    rw [e1, e2, parse_make_item_id, parse_make_item_id]

/-! ### Helper lemmas: XML trees -/

theorem mem_descL_of_mem_toList :
    ∀ {f : XmlForest} {e : XmlElem}, e ∈ f.toList → e ∈ f.descL
  | .nil, e, h => by simp [XmlForest.toList] at h
  | .cons c rest, e, h => by
    rcases List.mem_cons.mp h with h1 | h2
    · rw [h1]
      simp [XmlForest.descL]
    · simp only [XmlForest.descL, List.mem_cons, List.mem_append]
      right
      right
      exact mem_descL_of_mem_toList h2

theorem findChild_eq_none_of_no_desc {root : XmlElem} {tag : String}
    (h : ∀ e ∈ root.children.descL, e.tag ≠ tag) :
    findChild root tag = none := by
  unfold findChild
  rw [List.find?_eq_none]
  intro x hx
  simp only [decide_eq_true_eq]
  exact h x (mem_descL_of_mem_toList hx)

theorem findDescChild_eq_none_of_no_desc {root : XmlElem} {t1 t2 : String}
    (h : ∀ e ∈ root.children.descL, e.tag ≠ t1) :
    findDescChild root t1 t2 = none := by
  unfold findDescChild
  have hf : root.children.descL.filter (fun c => decide (c.tag = t1)) = [] := by
    rw [List.filter_eq_nil_iff]
    intro x hx
    simp only [decide_eq_true_eq]
    exact h x hx
  rw [hf]
  rfl

/-- C7: when the PROPFIND multistatus response for an item-info lookup
contains zero `d:response` elements, `get_item_info` fails with
`ItemNotFound`. -/
theorem C7_get_item_info_no_response (transport : Transport)
    (item_id : String) (t : ItemType) (path : String)
    (hparse : _parse_item_id item_id = .ok (t, path))
    (hresp : ∀ e ∈ (transport ⟨_strip_absolute_path path, "0",
        _BUILD_PROPFIND_ALLPROPS⟩).children.descL, e.tag ≠ "d:response") :
    get_item_info transport item_id = .error .itemNotFound := by
  unfold get_item_info
  rw [hparse]
  simp only [findChild_eq_none_of_no_desc hresp]

theorem C7_get_item_info_no_response_witness :
    get_item_info (fun _ => XmlElem.mk "d:multistatus" none .nil) "" =
      .error .itemNotFound :=
  C7_get_item_info_no_response _ "" .folder "/" (by decide)
    (by intro e he; simp [XmlElem.children, XmlForest.descL] at he)

/-- C1: in `get_external_account_id`, when the first PROPFIND response has
no `current-user-principal` property, the auth extras carry no username and
no fallback username is configured, the operation fails with
`MissingUsername`.  (The source hardcodes `_fallback_username =
"default-username"`; the configured fallback, of declared type
`str | None`, is the `fallback_username` parameter here.) -/
theorem C1_missing_username (fallback_username : Option String)
    (transport : Transport) (auth_result_extras : List (String × String))
    (hprop : ∀ e ∈ (transport ⟨_strip_absolute_path "", "0",
        _BUILD_PROPFIND_CURRENT_USER_PRINCIPAL⟩).children.descL,
        e.tag ≠ "d:current-user-principal")
    (huser : dictGet auth_result_extras "username" = none)
    (hfall : fallback_username = none) :
    get_external_account_id fallback_username transport auth_result_extras =
      .error .missingUsername := by
  have hfind := @findDescChild_eq_none_of_no_desc _ _ "d:href" hprop
  simp only [get_external_account_id, _parse_current_user_principal, hfind,
    _parse_property, huser, hfall, pyOrStr, pyTruthy]
  rfl

theorem C1_missing_username_witness :
    get_external_account_id none
      (fun _ => XmlElem.mk "d:multistatus" none .nil) [] =
      .error .missingUsername :=
  C1_missing_username none _ []
    (by intro e he; simp [XmlElem.children, XmlForest.descL] at he)
    (by decide) rfl

/-- C8: when the principal lookup fails with `PropertyNotFound` and the
auth extras carry username `"alice"`, the second PROPFIND of
`get_external_account_id` — displayname body, `Depth: 0` — is issued
against path `remote.php/dav/files/alice/`. -/
theorem C8_second_propfind_alice (fallback_username : Option String)
    (transport : Transport) (auth_result_extras : List (String × String))
    (hfail : _parse_current_user_principal (transport ⟨"", "0",
        _BUILD_PROPFIND_CURRENT_USER_PRINCIPAL⟩) = .error .propertyNotFound)
    (huser : dictGet auth_result_extras "username" = some "alice") :
    get_external_account_id fallback_username transport auth_result_extras =
      .ok (_parse_displayname (transport ⟨"remote.php/dav/files/alice/", "0",
            _BUILD_PROPFIND_DISPLAYNAME⟩),
        [⟨"", "0", _BUILD_PROPFIND_CURRENT_USER_PRINCIPAL⟩,
         ⟨"remote.php/dav/files/alice/", "0", _BUILD_PROPFIND_DISPLAYNAME⟩]) := by
  have hreq : (⟨_strip_absolute_path "", "0",
      _BUILD_PROPFIND_CURRENT_USER_PRINCIPAL⟩ : PropfindRequest) =
      ⟨"", "0", _BUILD_PROPFIND_CURRENT_USER_PRINCIPAL⟩ := rfl
  simp only [get_external_account_id, hreq, hfail, huser, pyOrStr, pyTruthy]
  rfl

theorem C8_second_propfind_alice_witness :
    get_external_account_id _fallback_username
      (fun _ => XmlElem.mk "d:multistatus" none .nil) [("username", "alice")] =
      .ok ("default-name",
        [⟨"", "0", _BUILD_PROPFIND_CURRENT_USER_PRINCIPAL⟩,
         ⟨"remote.php/dav/files/alice/", "0", _BUILD_PROPFIND_DISPLAYNAME⟩]) := by
  rw [C8_second_propfind_alice _fallback_username
    (fun _ => XmlElem.mk "d:multistatus" none .nil) [("username", "alice")]
    (by decide) (by decide)]
  rfl

/-! ### Helper lemmas: path segments -/

/-- The last non-empty segment of a slash-delimited path, as the claim for
the display-name fallback states it: split on `/`, keep the non-empty
segments, take the last one (if any). -/
def lastNonemptySegment (path : String) : Option String :=
  (((splitSlash path.data).filter (fun s => s ≠ [])).getLast?).map
    (fun s => (⟨s⟩ : String))

theorem splitSlash_ne_nil (cs : List Char) : splitSlash cs ≠ [] := by
  induction cs with
  | nil => simp [splitSlash]
  | cons c cs' ih =>
    by_cases hc : c = '/'
    · simp [splitSlash, hc]
    · rcases hsc : splitSlash cs' with _ | ⟨s, rest⟩
      · exact absurd hsc ih
      · simp [splitSlash, hc, hsc]

theorem splitSlash_append_slash (cs : List Char) :
    splitSlash (cs ++ ['/']) = splitSlash cs ++ [[]] := by
  induction cs with
  | nil => rfl
  | cons c cs' ih =>
    by_cases hc : c = '/'
    · subst hc
      simp [splitSlash, ih]
    · rcases hsc : splitSlash cs' with _ | ⟨s, rest⟩
      · exact absurd hsc (splitSlash_ne_nil cs')
      · simp [splitSlash, hc, ih, hsc]

theorem splitSlash_snoc_char (cs : List Char) (c : Char) (hc : c ≠ '/') :
    ∃ pre lastSeg, splitSlash cs = pre ++ [lastSeg] ∧
      splitSlash (cs ++ [c]) = pre ++ [lastSeg ++ [c]] := by
  induction cs with
  | nil => exact ⟨[], [], rfl, by simp [splitSlash, hc]⟩
  | cons c' cs' ih =>
    obtain ⟨pre, lastSeg, h1, h2⟩ := ih
    by_cases hc' : c' = '/'
    · subst hc'
      refine ⟨[] :: pre, lastSeg, ?_, ?_⟩
      · simp [splitSlash, h1]
      · simp [splitSlash, h2]
    · cases pre with
      | nil =>
        refine ⟨[], c' :: lastSeg, ?_, ?_⟩
        · simp [splitSlash, hc', h1]
        · simp [splitSlash, hc', h2]
      | cons p0 ps =>
        refine ⟨(c' :: p0) :: ps, lastSeg, ?_, ?_⟩
        · simp [splitSlash, hc', h1]
        · simp [splitSlash, hc', h2]


theorem getLast_splitSlash_rstrip (cs : List Char) (sl : List Char)
    (h : ((splitSlash cs).filter (fun s => s ≠ [])).getLast? = some sl) :
    (splitSlash ((cs.reverse.dropWhile (fun c => c = '/')).reverse)).getLastD []
      = sl := by
  induction cs using List.reverseRecOn with
  | nil => simp [splitSlash] at h
  | append_singleton l a ih =>
    by_cases ha : a = '/'
    · subst ha
      have h' : ((splitSlash l).filter (fun s => s ≠ [])).getLast? = some sl := by
        rw [splitSlash_append_slash] at h
        simpa using h
      have hr : ((l ++ ['/']).reverse.dropWhile (fun c => c = '/')).reverse
          = (l.reverse.dropWhile (fun c => c = '/')).reverse := by
        simp [List.dropWhile_cons]
      rw [hr]
      exact ih h'
    · obtain ⟨pre, lastSeg, h1, h2⟩ := splitSlash_snoc_char l a ha
      have hr : ((l ++ [a]).reverse.dropWhile (fun c => c = '/')).reverse
          = l ++ [a] := by
        simp [List.dropWhile_cons, ha]
      rw [h2] at h
      have hsl : sl = lastSeg ++ [a] := by
        rw [List.filter_append] at h
        simp at h
        exact h.symm
      rw [hr, h2, hsl]
      simp

theorem lastSegmentName_of_lastNonemptySegment (path seg : String)
    (h : lastNonemptySegment path = some seg) :
    lastSegmentName path = seg := by
  unfold lastNonemptySegment at h
  obtain ⟨sl, hsl, hmk⟩ := Option.map_eq_some'.mp h
  have hcore := getLast_splitSlash_rstrip path.data sl hsl
  have hrfl : lastSegmentName path =
      ⟨(splitSlash ((path.data.reverse.dropWhile
          (fun c => c = '/')).reverse)).getLastD []⟩ := rfl
  rw [hrfl, hcore, hmk]

/-- C2: when a WebDAV response element has no `d:displayname` element, or
its `d:displayname` element has no (or empty) text, the parsed item's name
is the last non-empty segment of the slash-delimited path. -/
theorem C2_displayname_fallback (response_element : XmlElem)
    (path seg : String)
    (hseg : lastNonemptySegment path = some seg)
    (hdn : ∀ dn, findDesc response_element "d:displayname" = some dn →
        dn.text = none ∨ dn.text = some "") :
    (_parse_response_element response_element path).item_name = seg := by
  unfold _parse_response_element
  cases hfd : findDesc response_element "d:displayname" with
  | none =>
    simp only [hfd]
    exact lastSegmentName_of_lastNonemptySegment path seg hseg
  | some dn =>
    rcases hdn dn hfd with ht | ht <;> simp only [hfd, ht] <;>
      exact lastSegmentName_of_lastNonemptySegment path seg hseg

theorem C2_displayname_fallback_witness :
    (_parse_response_element (XmlElem.mk "d:response" none .nil) "a/b").item_name
      = "b" :=
  C2_displayname_fallback (XmlElem.mk "d:response" none .nil) "a/b" "b"
    (by decide)
    (by intro dn hdn; simp [findDesc, XmlElem.children, XmlForest.descL] at hdn)

/-! ### C10: responses with an absent or empty href are skipped -/

theorem ofList_toList (l : List XmlElem) : (XmlForest.ofList l).toList = l := by
  induction l with
  | nil => rfl
  | cons x xs ih => simp [XmlForest.ofList, XmlForest.toList, ih]

/-- C10: a `d:response` element of the multistatus whose `d:href` child is
absent, or has no (or empty) text, contributes no item to the page computed
by `list_child_items` — removing it leaves the result unchanged — and never
makes the operation fail: whenever the item id decodes, the operation
returns a page. -/
theorem C10_bad_href_skipped (external_api_url path : String)
    (filt : Option ItemType) (tg : String) (tx : Option String)
    (xs ys : List XmlElem) (e : XmlElem)
    (htag : e.tag = "d:response")
    (hhref : ∀ he, findChild e "d:href" = some he →
        he.text = none ∨ he.text = some "") :
    parseMultistatusChildren external_api_url
        (XmlElem.mk tg tx (XmlForest.ofList (xs ++ e :: ys))) path filt
      = parseMultistatusChildren external_api_url
        (XmlElem.mk tg tx (XmlForest.ofList (xs ++ ys))) path filt ∧
    (∀ (transport : Transport) (item_id : String) (t : ItemType) (p : String),
      _parse_item_id item_id = .ok (t, p) →
      ∃ page, list_child_items external_api_url transport item_id filt
        = .ok page) := by
  constructor
  · unfold parseMultistatusChildren findAllChildren
    simp only [XmlElem.children, ofList_toList]
    have hfilter : (xs ++ e :: ys).filter (fun c => decide (c.tag = "d:response"))
        = xs.filter (fun c => decide (c.tag = "d:response"))
          ++ e :: ys.filter (fun c => decide (c.tag = "d:response")) := by
      simp [List.filter_append, List.filter_cons, htag]
    rw [hfilter, List.filter_append, List.filterMap_append,
      List.filterMap_cons, List.filterMap_append]
    cases hfc : findChild e "d:href" with
    | none => simp [hfc]
    | some he => rcases hhref he hfc with ht | ht <;> simp [hfc, ht]
  · intro transport item_id t p hp
    refine ⟨⟨parseMultistatusChildren external_api_url
        (transport ⟨_strip_absolute_path p, "1", _BUILD_PROPFIND_ALLPROPS⟩)
        p filt⟩, ?_⟩
    unfold list_child_items
    rw [hp]

theorem C10_bad_href_skipped_witness :
    parseMultistatusChildren "https://host/base/" (XmlElem.mk "d:multistatus"
        none (XmlForest.ofList ([] ++ XmlElem.mk "d:response" none
          (XmlForest.ofList [XmlElem.mk "d:href" none XmlForest.nil]) :: [])))
        "/" none
      = parseMultistatusChildren "https://host/base/" (XmlElem.mk
        "d:multistatus" none (XmlForest.ofList ([] ++ []))) "/" none ∧
    ∃ page, list_child_items "https://host/base/"
        (fun _ => XmlElem.mk "d:multistatus" none XmlForest.nil) "" none
        = .ok page := by
  have h := C10_bad_href_skipped "https://host/base/" "/" none "d:multistatus"
    none [] []
    (XmlElem.mk "d:response" none
      (XmlForest.ofList [XmlElem.mk "d:href" none XmlForest.nil]))
    (by decide)
    (by
      intro he hh
      have hfc : findChild (XmlElem.mk "d:response" none
          (XmlForest.ofList [XmlElem.mk "d:href" none XmlForest.nil])) "d:href"
          = some (XmlElem.mk "d:href" none XmlForest.nil) := by decide
      rw [hfc] at hh
      cases hh
      left
      rfl)
  exact ⟨h.1, h.2 (fun _ => XmlElem.mk "d:multistatus" none XmlForest.nil) ""
    .folder "/" (by decide)⟩

/-! ### C6: the container's own entry is excluded from child listings -/

/-- C6: a page returned by `list_child_items` never contains an entry whose
trailing-slash-trimmed path (recovered from its item id) equals the
trailing-slash-trimmed queried path: the container's self-referencing
response element is excluded. -/
theorem C6_self_entry_excluded (external_api_url : String)
    (transport : Transport) (item_id : String) (filt : Option ItemType)
    (t : ItemType) (path : String) (page : ItemSampleResult)
    (hparse : _parse_item_id item_id = .ok (t, path))
    (hrun : list_child_items external_api_url transport item_id filt
      = .ok page) :
    ∀ r ∈ page.items, ∀ (t' : ItemType) (p' : String),
      _parse_item_id r.item_id = .ok (t', p') →
      rstripSlash p' ≠ rstripSlash path := by
  intro r hr t' p' hid
  unfold list_child_items at hrun
  rw [hparse] at hrun
  have hpage : (Except.ok ⟨parseMultistatusChildren external_api_url
      (transport ⟨_strip_absolute_path path, "1", _BUILD_PROPFIND_ALLPROPS⟩)
      path filt⟩ : Except AdapterError ItemSampleResult) = .ok page := hrun
  have hpi := Except.ok.inj hpage
  subst hpi
  have hr' : r ∈ parseMultistatusChildren external_api_url
      (transport ⟨_strip_absolute_path path, "1", _BUILD_PROPFIND_ALLPROPS⟩)
      path filt := hr
  unfold parseMultistatusChildren at hr'
  obtain ⟨re, hre, hf⟩ := List.mem_filterMap.mp hr'
  have hfin : ∀ ip : String, r = _parse_response_element re ip →
      rstripSlash ip ≠ rstripSlash path →
      rstripSlash p' ≠ rstripSlash path := by
    intro ip hr_eq hne
    subst hr_eq
    have hmk : (_parse_response_element re ip).item_id
        = _make_item_id (_parse_response_element re ip).item_type ip := rfl
    rw [hmk, parse_make_item_id] at hid
    have hip := Except.ok.inj hid
    cases hip
    exact hne
  simp only at hf
  split at hf
  next => exact absurd hf (by simp)
  next he hfc =>
    split at hf
    next => exact absurd hf (by simp)
    next href htx =>
      split at hf
      next => exact absurd hf (by simp)
      next h0 =>
        split at hf
        next heq => exact absurd hf (by simp)
        next heq =>
          split at hf
          next want hfilt =>
            split at hf
            next hty => exact hfin _ (Option.some.inj hf).symm heq
            next hty => exact absurd hf (by simp)
          next hfilt => exact hfin _ (Option.some.inj hf).symm heq

theorem C6_self_entry_excluded_witness :
    rstripSlash "docs" ≠ rstripSlash "/" :=
  C6_self_entry_excluded "https://host/base/"
    (fun _ => XmlElem.mk "d:multistatus" none (XmlForest.ofList
      [XmlElem.mk "d:response" none (XmlForest.ofList
        [XmlElem.mk "d:href" (some "/base/") XmlForest.nil]),
       XmlElem.mk "d:response" none (XmlForest.ofList
        [XmlElem.mk "d:href" (some "/base/docs/") XmlForest.nil])]))
    "" none .folder "/"
    ⟨[⟨"file:docs", "docs", .file⟩]⟩ (by decide) (by decide)
    ⟨"file:docs", "docs", .file⟩ (by decide) .file "docs" (by decide)

/-! ### C3: href-to-path normalization -/

/-- Modelled from the spec's words (refinement reference for C3):
percent-decode the href, take its URL path component, strip the leading
slashes (`lstrip("/")` removes every leading slash), strip the configured
base API URL's normalized — slash-trimmed — path when it is a plain string
prefix, trim remaining slashes on both ends, and normalize an empty result
to `"/"`. -/
def hrefToPathSpec (external_api_url : String) (href : String) : String :=
  let decoded := unquote href
  let href_path := lstripSlash (urlPath decoded)
  let normalized_base := pyStripSlash (urlPath external_api_url)
  let stripped :=
    if pyStartswith href_path normalized_base then
      href_path.drop normalized_base.length
    else href_path
  let trimmed := pyStripSlash stripped
  if trimmed = "" then "/" else trimmed

/-- C3: `_href_to_path` implements exactly the pipeline the claim
describes (percent-decode, URL path component, leading-slash strip,
base-path prefix strip, slash trim, empty-to-root); in particular, with
base `https://host/remote.php/dav/files/u/`, the href
`/remote.php/dav/files/u/docs/` maps to `"docs"` and an href equal to the
base path maps to `"/"`. -/
theorem C3_href_to_path :
    (∀ external_api_url href,
      _href_to_path external_api_url href = hrefToPathSpec external_api_url href) ∧
    _href_to_path "https://host/remote.php/dav/files/u/"
        "/remote.php/dav/files/u/docs/" = "docs" ∧
    _href_to_path "https://host/remote.php/dav/files/u/"
        "/remote.php/dav/files/u/" = "/" :=
  ⟨fun _ _ => rfl, by decide, by decide⟩
